import Mathlib

/-!
Shallow embedding of the retail-orders dashboard pipeline
(filter engine, aggregator, summary size check, plot marker
configuration, and the load-time column validation) together with
proofs about the embedded operations.

The source is a Python/pandas program; the embedding follows its
semantics: dimension cells are `Option String` (`none` models a
missing/NaN cell), metric cells are rationals, `groupby` drops rows
whose grouping key contains a missing value (pandas default
`dropna=True`), equality and `isin` comparisons against a missing
cell are false, and `str.contains(term, case=False, na=False)` is
modelled as case-insensitive substring containment (literal search
terms) that rejects missing cells.
-/

namespace Kuper

/-- One raw record of the uploaded dataset.  The five metric columns
(`CP1 - ads`, `Orders delivered`, `Promo`, `GMV NoP - ads`,
`Direct fullfillment`) are rationals; the dimension columns are
optional strings, `none` standing for a missing (NaN) cell. -/
structure Row where
  nrr : Option String
  dt : Option String
  flag : Option String
  delivery : Option String
  retailer : Option String
  city : Option String
  userId : Option String
  shipmentId : Option String
  cp1Ads : Rat
  ordersDelivered : Rat
  promo : Rat
  gmvNoP : Rat
  fulfillment : Rat
deriving DecidableEq, Repr

/-- The optional dimension/identifier columns of the dataset. -/
inductive Col
  | nrr
  | dt
  | flag
  | delivery
  | retailer
  | city
  | userId
  | shipmentId
deriving DecidableEq, BEq, Repr

/-- Value of a dimension column in a row. -/
def Row.get (r : Row) : Col → Option String
  | Col.nrr => r.nrr
  | Col.dt => r.dt
  | Col.flag => r.flag
  | Col.delivery => r.delivery
  | Col.retailer => r.retailer
  | Col.city => r.city
  | Col.userId => r.userId
  | Col.shipmentId => r.shipmentId

/-- A dataset: which optional columns are present (pandas
`col in df.columns`) plus the list of rows. -/
structure DataFrame where
  hasNRR : Bool
  hasDt : Bool
  hasFlag : Bool
  hasDelivery : Bool
  hasRetailer : Bool
  hasCity : Bool
  hasUserId : Bool
  hasShipmentId : Bool
  rows : List Row
deriving DecidableEq, Repr

/-- Presence of an optional column in the dataset. -/
def DataFrame.hasCol (df : DataFrame) : Col → Bool
  | Col.nrr => df.hasNRR
  | Col.dt => df.hasDt
  | Col.flag => df.hasFlag
  | Col.delivery => df.hasDelivery
  | Col.retailer => df.hasRetailer
  | Col.city => df.hasCity
  | Col.userId => df.hasUserId
  | Col.shipmentId => df.hasShipmentId

/-- The filter panel state stored in the session (`st.session_state.filters`).
The string sentinel for "no restriction" is the literal used in the
source. -/
structure FilterSelection where
  targetNrr : String
  dates : List String
  flags : List String
  delivery : List String
  retailers : List String
  cities : List String
  retailerSearch : String
  minOrders : Rat
deriving DecidableEq, Repr

/-- Character-wise comparison of a candidate leading segment. -/
def leadEq : List Char → List Char → Bool
  | [], _ => true
  | _ :: _, [] => false
  | a :: as, b :: bs => a == b && leadEq as bs

/-- Substring containment on character lists. -/
def hasSub (n : List Char) : List Char → Bool
  | [] => n.isEmpty
  | b :: bs => leadEq n (b :: bs) || hasSub n bs

/-- Case-insensitive substring containment, the semantics of pandas
`Series.str.contains(term, case=False)` for a literal search term:
both sides are lowercased character-wise before the containment
check. -/
def hasSubCI (term s : String) : Bool :=
  hasSub (term.toList.map Char.toLower) (s.toList.map Char.toLower)

/-- Pandas `series.isin(sel)` on an optional cell: a missing cell is
never a member of a list of selected strings. -/
def optIn (v : Option String) (sel : List String) : Bool :=
  match v with
  | some s => sel.contains s
  | none => false

/-- Pandas `series.str.contains(term, case=False, na=False)` on an
optional cell: a missing cell never matches. -/
def optMatches (v : Option String) (term : String) : Bool :=
  match v with
  | some s => hasSubCI term s
  | none => false

/-- NRR filter step (`filtered_df[filtered_df['NRR'] == target]`,
applied only when the column is present and the selection is not the
sentinel). -/
def nrrStep (df : DataFrame) (f : FilterSelection) (l : List Row) : List Row :=
  if df.hasNRR && (f.targetNrr != "Все") then
    l.filter (fun r => r.nrr == some f.targetNrr)
  else l

/-- Date filter step. -/
def dateStep (df : DataFrame) (f : FilterSelection) (l : List Row) : List Row :=
  if df.hasDt && !(f.dates.contains "Все") then
    l.filter (fun r => optIn r.dt f.dates)
  else l

/-- Flag filter step. -/
def flagStep (df : DataFrame) (f : FilterSelection) (l : List Row) : List Row :=
  if df.hasFlag && !(f.flags.contains "Все") then
    l.filter (fun r => optIn r.flag f.flags)
  else l

/-- Delivery-type filter step. -/
def deliveryStep (df : DataFrame) (f : FilterSelection) (l : List Row) : List Row :=
  if df.hasDelivery && !(f.delivery.contains "Все") then
    l.filter (fun r => optIn r.delivery f.delivery)
  else l

/-- Retailer multiselect filter step. -/
def retailerStep (df : DataFrame) (f : FilterSelection) (l : List Row) : List Row :=
  if df.hasRetailer && !(f.retailers.contains "Все") then
    l.filter (fun r => optIn r.retailer f.retailers)
  else l

/-- City filter step. -/
def cityStep (df : DataFrame) (f : FilterSelection) (l : List Row) : List Row :=
  if df.hasCity && !(f.cities.contains "Все") then
    l.filter (fun r => optIn r.city f.cities)
  else l

/-- Retailer free-text search step (skipped when the term is the
empty string, which is falsy in the source). -/
def searchStep (df : DataFrame) (f : FilterSelection) (l : List Row) : List Row :=
  if df.hasRetailer && (f.retailerSearch != "") then
    l.filter (fun r => optMatches r.retailer f.retailerSearch)
  else l

/-- Minimum delivered-orders threshold step, always applied last. -/
def minOrdersStep (f : FilterSelection) (l : List Row) : List Row :=
  l.filter (fun r => decide (f.minOrders ≤ r.ordersDelivered))

/-- The filter engine `apply_filters`: the sequential intersection of
all predicate steps, ending with the minimum-orders threshold. -/
def applyFilters (df : DataFrame) (f : FilterSelection) : List Row :=
  minOrdersStep f
    (searchStep df f
      (cityStep df f
        (retailerStep df f
          (deliveryStep df f
            (flagStep df f
              (dateStep df f
                (nrrStep df f df.rows)))))))

/-- The granularity choice offered by the flexible dashboard variant. -/
inductive Granularity
  | shipment
  | user
  | retailer
  | city
  | date
  | overall
deriving DecidableEq, BEq, Repr

/-- Primary grouping key and entity label for a granularity choice,
falling through to the overall level when the needed identifier
columns are absent (the elif cascade of
`analyze_data_by_granulation`). -/
def groupPlanBase (df : DataFrame) (g : Granularity) : List Col × String :=
  if g == Granularity.shipment && df.hasUserId && df.hasShipmentId then
    ([Col.userId, Col.shipmentId], "shipments")
  else if g == Granularity.user && df.hasUserId then
    ([Col.userId], "users")
  else if g == Granularity.retailer && df.hasRetailer then
    ([Col.retailer], "retailers")
  else if g == Granularity.city && df.hasCity then
    ([Col.city], "cities")
  else if g == Granularity.date && df.hasDt then
    ([Col.dt], "dates")
  else
    ([], "overall")

/-- The optional dimension columns appended to every grouping key, in
the fixed order of the source. -/
def optionalGroupCols : List Col :=
  [Col.dt, Col.flag, Col.delivery, Col.retailer, Col.city]

/-- Full grouping key: the primary key extended by every present
optional dimension column not already in the key.  The loop runs for
every granularity, the overall branch included. -/
def groupCols (df : DataFrame) (g : Granularity) : List Col :=
  optionalGroupCols.foldl
    (fun acc c => if df.hasCol c && !(acc.contains c) then acc ++ [c] else acc)
    (groupPlanBase df g).1

/-- Entity label reported alongside the aggregated result. -/
def entityName (df : DataFrame) (g : Granularity) : String :=
  (groupPlanBase df g).2

/-- Grouping-key values of a row. -/
def rowKey (cols : List Col) (r : Row) : List (Option String) :=
  cols.map r.get

/-- A row participates in the group-by only when every grouping-key
cell is present; pandas `groupby` silently drops the others
(`dropna=True`). -/
def keyComplete (cols : List Col) (r : Row) : Bool :=
  cols.all (fun c => (r.get c).isSome)

/-- Sum of a metric over a list of rows. -/
def sumBy (m : Row → Rat) (l : List Row) : Rat :=
  (l.map m).sum

/-- One aggregated row: the grouping-key values, the five summed
metrics, and the four per-order quotients computed after summation. -/
structure AggRow where
  key : List (Option String)
  cp1Ads : Rat
  ordersDelivered : Rat
  promo : Rat
  gmvNoP : Rat
  fulfillment : Rat
  cp1PerOrder : Rat
  promoPerOrder : Rat
  fulfillmentPerOrder : Rat
  gmvPerOrder : Rat
deriving DecidableEq, Repr

/-- Build the aggregated row of one group from its member rows. -/
def mkAggRow (k : List (Option String)) (l : List Row) : AggRow :=
  { key := k
    cp1Ads := sumBy Row.cp1Ads l
    ordersDelivered := sumBy Row.ordersDelivered l
    promo := sumBy Row.promo l
    gmvNoP := sumBy Row.gmvNoP l
    fulfillment := sumBy Row.fulfillment l
    cp1PerOrder := sumBy Row.cp1Ads l / sumBy Row.ordersDelivered l
    promoPerOrder := sumBy Row.promo l / sumBy Row.ordersDelivered l
    fulfillmentPerOrder := sumBy Row.fulfillment l / sumBy Row.ordersDelivered l
    gmvPerOrder := sumBy Row.gmvNoP l / sumBy Row.ordersDelivered l }

/-- Pandas `groupby(cols).agg(sum).reset_index()`: drop rows with a
missing key cell, then one aggregated row per distinct key. -/
def groupAgg (cols : List Col) (l : List Row) : List AggRow :=
  let kept := l.filter (keyComplete cols)
  ((kept.map (rowKey cols)).dedup).map
    (fun k => mkAggRow k (kept.filter (fun r => rowKey cols r == k)))

/-- The aggregator `analyze_data_by_granulation`: an empty filtered
set is a distinct error outcome (`none`); with an empty grouping key
the whole filtered set is summed into a single row; otherwise the
filtered set is grouped and summed. -/
def analyzeByGranulation (df : DataFrame) (f : FilterSelection) (g : Granularity) :
    Option (List AggRow × String) :=
  if (applyFilters df f).isEmpty then none
  else if (groupCols df g).isEmpty then
    some ([mkAggRow [] (applyFilters df f)], entityName df g)
  else
    some (groupAgg (groupCols df g) (applyFilters df f), entityName df g)

/-- Sum of the delivered-orders column over an aggregated result. -/
def aggOrdersSum (rows : List AggRow) : Rat :=
  (rows.map AggRow.ordersDelivered).sum

/-- Number of rows of the aggregated result (0 for the error outcome). -/
def aggRowCount (df : DataFrame) (f : FilterSelection) (g : Granularity) : Nat :=
  match analyzeByGranulation df f g with
  | some p => p.1.length
  | none => 0

/-- The three advisory size tiers of `check_data_size`. -/
inductive SizeTier
  | comfortable
  | responsive
  | oversized
deriving DecidableEq, Repr

/-- Size-tier classification of the aggregated row count
(`if num_points > 10000 ... elif num_points > 5000 ... else ...`). -/
def classifySize (n : Nat) : SizeTier :=
  if n > 10000 then SizeTier.oversized
  else if n > 5000 then SizeTier.responsive
  else SizeTier.comfortable

/-- The session state touched by the filter-and-check action. -/
structure SessionState where
  currentFilteredData : Option (List AggRow)
  currentEntityName : Option String
deriving DecidableEq, Repr

/-- State effect of `check_data_size` in the flexible variant: on the
empty-result outcome the stored aggregated result is set to `none`
and the function returns (the stored entity label is not touched);
on success both stored fields are replaced. -/
def checkDataSize (df : DataFrame) (f : FilterSelection) (g : Granularity)
    (s : SessionState) : SessionState :=
  match analyzeByGranulation df f g with
  | none => { s with currentFilteredData := none }
  | some p => { currentFilteredData := some p.1, currentEntityName := some p.2 }

/-- Required columns of the flexible variant: the five metric columns. -/
def requiredColumnsFlexible : List String :=
  ["CP1 - ads", "Orders delivered", "Promo", "GMV NoP - ads", "Direct fullfillment"]

/-- Required columns of the strict variant: the eight dimension and
identifier columns in addition to the five metric columns. -/
def requiredColumnsStrict : List String :=
  ["user_id", "shipment_id", "retailer_name", "city_category", "NRR", "dt", "flag",
   "type_store_delivery", "CP1 - ads", "Orders delivered", "Promo", "GMV NoP - ads",
   "Direct fullfillment"]

/-- The list comprehension collecting required columns absent from the
uploaded header. -/
def missingRequired (req cols : List String) : List String :=
  req.filter (fun c => !(decide (c ∈ cols)))

/-- Load-time validation of the flexible variant fails exactly when
some metric column is missing. -/
def validationFailsFlexible (cols : List String) : Bool :=
  !(missingRequired requiredColumnsFlexible cols).isEmpty

/-- Load-time validation of the strict variant fails when any of the
thirteen listed columns is missing. -/
def validationFailsStrict (cols : List String) : Bool :=
  !(missingRequired requiredColumnsStrict cols).isEmpty

/-- Insertion into a sorted list of rationals. -/
def insertSorted (x : Rat) : List Rat → List Rat
  | [] => [x]
  | y :: t => if x ≤ y then x :: y :: t else y :: insertSorted x t

/-- Ascending insertion sort. -/
def sortRats (l : List Rat) : List Rat :=
  l.foldr insertSorted []

/-- Pandas `Series.quantile(q)` with the default linear interpolation:
with the values sorted ascending, the quantile sits at fractional
position `q * (n - 1)` and interpolates linearly between the two
surrounding order statistics. -/
def quantileLinear (q : Rat) (l : List Rat) : Rat :=
  let s := sortRats l
  let n := s.length
  if n = 0 then 0
  else
    let h : Rat := q * ((n : Rat) - 1)
    let lo : Int := h.floor
    let hi : Int := h.ceil
    let slo := s.getD lo.toNat 0
    let shi := s.getD hi.toNat 0
    slo + (h - (lo : Rat)) * (shi - slo)

/-- The marker configuration of the rendered 3D point cloud: colour
values, colour scale, and the optional explicit colour-domain bounds
(plotly `cmin`/`cmax`, absent when not set). -/
structure MarkerSpec where
  colorValues : List Rat
  colorScale : String
  cmin : Option Rat
  cmax : Option Rat
deriving DecidableEq, Repr

/-- Marker built by `create_3d_scatter_plot`: colour is the
advertising-cost quotient and the colour domain is clamped to its 5th
and 95th percentiles over the plotted rows. -/
def plotMarkerFull (data : List AggRow) : MarkerSpec :=
  { colorValues := data.map AggRow.cp1PerOrder
    colorScale := "RdYlGn"
    cmin := some (quantileLinear (1 / 20) (data.map AggRow.cp1PerOrder))
    cmax := some (quantileLinear (19 / 20) (data.map AggRow.cp1PerOrder)) }

/-- Marker built by the simplified `create_plot`: same colour column
and scale, but no explicit colour-domain bounds. -/
def plotMarkerSimple (data : List AggRow) : MarkerSpec :=
  { colorValues := data.map AggRow.cp1PerOrder
    colorScale := "RdYlGn"
    cmin := none
    cmax := none }

/-- A filter selection whose every restriction is the sentinel and
whose minimum-orders threshold is 1. -/
def selAll : FilterSelection :=
  { targetNrr := "Все"
    dates := ["Все"]
    flags := ["Все"]
    delivery := ["Все"]
    retailers := ["Все"]
    cities := ["Все"]
    retailerSearch := ""
    minOrders := 1 }

/-- A baseline raw row with no dimension values. -/
def wRowA : Row :=
  { nrr := none, dt := none, flag := none, delivery := none, retailer := none,
    city := none, userId := none, shipmentId := none,
    cp1Ads := 100, ordersDelivered := 20, promo := 40, gmvNoP := 300,
    fulfillment := 60 }

/-- A raw row with zero delivered orders. -/
def rowZero : Row :=
  { wRowA with ordersDelivered := 0 }

/-- A raw row dated "d1". -/
def rowD1 : Row :=
  { wRowA with dt := some "d1" }

/-- A raw row dated "d2". -/
def rowD2 : Row :=
  { wRowA with dt := some "d2" }

/-- A raw row with a missing date cell and ten delivered orders. -/
def rowNoDt : Row :=
  { wRowA with ordersDelivered := 10 }

/-- A raw row naming retailer "Alpha". -/
def rowRet : Row :=
  { wRowA with retailer := some "Alpha" }

/-- A dataset with no optional columns and the baseline row. -/
def dfNone : DataFrame :=
  { hasNRR := false, hasDt := false, hasFlag := false, hasDelivery := false,
    hasRetailer := false, hasCity := false, hasUserId := false,
    hasShipmentId := false, rows := [wRowA] }

/-- A dataset whose single row has zero delivered orders. -/
def dfZero : DataFrame :=
  { dfNone with rows := [rowZero] }

/-- A dataset with a date column and two distinct dates. -/
def dfDt : DataFrame :=
  { dfNone with hasDt := true, rows := [rowD1, rowD2] }

/-- A dataset with a date column whose single row has a missing date. -/
def dfNoDt : DataFrame :=
  { dfNone with hasDt := true, rows := [rowNoDt] }

/-- A dataset with no rows at all. -/
def dfEmpty : DataFrame :=
  { dfNone with rows := [] }

/-- A dataset with a retailer column and one named retailer. -/
def dfRet : DataFrame :=
  { dfNone with hasRetailer := true, rows := [rowRet] }

/-- A selection searching for the term "alp". -/
def selSearch : FilterSelection :=
  { selAll with retailerSearch := "alp" }

/-- A session state holding a previously computed aggregated result. -/
def statePrior : SessionState :=
  { currentFilteredData := some [mkAggRow [] [wRowA]]
    currentEntityName := some "retailers" }

/-- A small aggregated result used as marker input. -/
def dataNine : List AggRow :=
  [mkAggRow [] [wRowA]]

/-! ### General lemmas about the embedded operations -/

theorem contains_of_mem {α : Type} [BEq α] [LawfulBEq α] {a : α} {l : List α}
    (h : a ∈ l) : l.contains a = true :=
  List.elem_eq_true_of_mem h

theorem sum_filter_split {α : Type} (p : α → Bool) (g : α → Rat) (l : List α) :
    ((l.filter p).map g).sum + ((l.filter (fun x => !(p x))).map g).sum
      = (l.map g).sum := by
  induction l with
  | nil => simp
  | cons a t ih =>
    cases hp : p a <;> simp [List.filter_cons, hp] <;> linarith [ih]

theorem filter_filter_ne {α κ : Type} [BEq κ] [LawfulBEq κ] (key : α → κ) (k k' : κ)
    (hkk : k' ≠ k) (l : List α) :
    (l.filter (fun x => !(key x == k))).filter (fun x => key x == k')
      = l.filter (fun x => key x == k') := by
  induction l with
  | nil => rfl
  | cons a t iht =>
    by_cases ha : key a = k
    · have h1 : (key a == k) = true := beq_iff_eq.mpr ha
      have h2 : (key a == k') = false := by
        apply beq_eq_false_iff_ne.mpr
        rw [ha]
        exact fun he => hkk he.symm
      simp [List.filter_cons, h1, h2, iht]
    · have h1 : (key a == k) = false := beq_eq_false_iff_ne.mpr ha
      by_cases hb : key a = k'
      · have h2 : (key a == k') = true := beq_iff_eq.mpr hb
        simp [List.filter_cons, h1, h2, iht]
      · have h2 : (key a == k') = false := beq_eq_false_iff_ne.mpr hb
        simp [List.filter_cons, h1, h2, iht]

theorem sum_fiber_split {α κ : Type} [BEq κ] [LawfulBEq κ] (key : α → κ) (g : α → Rat) :
    ∀ (keys : List κ) (l : List α), keys.Nodup → (∀ x ∈ l, key x ∈ keys) →
      (keys.map (fun k => ((l.filter (fun x => key x == k)).map g).sum)).sum
        = (l.map g).sum := by
  intro keys
  induction keys with
  | nil =>
    intro l _ hcov
    cases l with
    | nil => simp
    | cons a t => exact absurd (hcov a (List.mem_cons_self a t)) (List.not_mem_nil (key a))
  | cons k ks ih =>
    intro l hnd hcov
    have hk_notin : k ∉ ks := (List.nodup_cons.mp hnd).1
    have hnd2 : ks.Nodup := (List.nodup_cons.mp hnd).2
    have hcov2 : ∀ x ∈ l.filter (fun x => !(key x == k)), key x ∈ ks := by
      intro x hx
      have hm := List.mem_filter.mp hx
      have hne : ¬ key x = k := by
        have h2 := hm.2
        simp only [Bool.not_eq_true'] at h2
        exact beq_eq_false_iff_ne.mp h2
      rcases List.mem_cons.mp (hcov x hm.1) with he | hks
      · exact absurd he hne
      · exact hks
    have hmapeq :
        ks.map (fun k' => ((l.filter (fun x => key x == k')).map g).sum)
          = ks.map (fun k' =>
              (((l.filter (fun x => !(key x == k))).filter
                  (fun x => key x == k')).map g).sum) := by
      apply List.map_congr_left
      intro k' hk'
      rw [filter_filter_ne key k k' (fun he => hk_notin (he ▸ hk')) l]
    have hih := ih (l.filter (fun x => !(key x == k))) hnd2 hcov2
    simp only [List.map_cons, List.sum_cons]
    rw [hmapeq, hih]
    exact sum_filter_split (fun x => key x == k) g l

theorem groupAgg_orders_sum (cols : List Col) (l : List Row) :
    aggOrdersSum (groupAgg cols l)
      = sumBy Row.ordersDelivered (l.filter (keyComplete cols)) := by
  unfold aggOrdersSum groupAgg sumBy
  rw [List.map_map]
  exact sum_fiber_split (rowKey cols) Row.ordersDelivered _ _
    (List.nodup_dedup _)
    (fun x hx => List.mem_dedup.mpr (List.mem_map_of_mem _ hx))

theorem mem_groupAgg_struct (cols : List Col) (l : List Row) (r : AggRow)
    (h : r ∈ groupAgg cols l) :
    ∃ k fiber, r = mkAggRow k fiber ∧ fiber ≠ [] ∧ ∀ x ∈ fiber, x ∈ l := by
  unfold groupAgg at h
  obtain ⟨k, hk, hr⟩ := List.mem_map.mp h
  refine ⟨k, (l.filter (keyComplete cols)).filter (fun row => rowKey cols row == k),
    hr.symm, ?_, ?_⟩
  · have hk2 := List.mem_dedup.mp hk
    obtain ⟨x, hx, hxk⟩ := List.mem_map.mp hk2
    intro hnil
    have hxf : x ∈ (l.filter (keyComplete cols)).filter
        (fun row => rowKey cols row == k) :=
      List.mem_filter.mpr ⟨hx, beq_iff_eq.mpr hxk⟩
    rw [hnil] at hxf
    exact List.not_mem_nil x hxf
  · intro x hx
    exact (List.mem_filter.mp (List.mem_filter.mp hx).1).1

theorem mem_analyze_struct (df : DataFrame) (f : FilterSelection) (g : Granularity)
    (rows : List AggRow) (entity : String) (r : AggRow)
    (h : analyzeByGranulation df f g = some (rows, entity)) (hr : r ∈ rows) :
    ∃ fiber : List Row, fiber ≠ [] ∧ (∀ x ∈ fiber, x ∈ applyFilters df f)
      ∧ r.ordersDelivered = sumBy Row.ordersDelivered fiber
      ∧ r.cp1PerOrder = r.cp1Ads / r.ordersDelivered
      ∧ r.promoPerOrder = r.promo / r.ordersDelivered
      ∧ r.fulfillmentPerOrder = r.fulfillment / r.ordersDelivered
      ∧ r.gmvPerOrder = r.gmvNoP / r.ordersDelivered := by
  unfold analyzeByGranulation at h
  by_cases h1 : (applyFilters df f).isEmpty
  · simp [h1] at h
  · by_cases h2 : (groupCols df g).isEmpty
    · simp only [h1, Bool.false_eq_true, if_false, h2, if_true,
        Option.some.injEq, Prod.mk.injEq] at h
      obtain ⟨h3, -⟩ := h
      rw [← h3] at hr
      have hreq : r = mkAggRow [] (applyFilters df f) := List.mem_singleton.mp hr
      subst hreq
      refine ⟨applyFilters df f, ?_, fun x hx => hx, rfl, rfl, rfl, rfl, rfl⟩
      intro he
      exact h1 (by rw [he]; rfl)
    · simp only [h1, Bool.false_eq_true, if_false, h2, Option.some.injEq,
        Prod.mk.injEq] at h
      obtain ⟨h3, -⟩ := h
      rw [← h3] at hr
      obtain ⟨k, fiber, hrk, hfne, hsub⟩ := mem_groupAgg_struct _ _ _ hr
      subst hrk
      exact ⟨fiber, hfne, fun x hx => hsub x hx, rfl, rfl, rfl, rfl, rfl⟩

theorem mem_applyFilters_orders (df : DataFrame) (f : FilterSelection) (r : Row)
    (h : r ∈ applyFilters df f) : f.minOrders ≤ r.ordersDelivered := by
  unfold applyFilters minOrdersStep at h
  exact of_decide_eq_true (List.mem_filter.mp h).2

theorem sum_map_ge (m : Rat) (g : Row → Rat) :
    ∀ l : List Row, l ≠ [] → 0 ≤ m → (∀ x ∈ l, m ≤ g x) → m ≤ (l.map g).sum := by
  intro l
  induction l with
  | nil => intro h; exact absurd rfl h
  | cons a t ih =>
    intro _ hm hall
    cases t with
    | nil => simpa using hall a (by simp)
    | cons b u =>
      have h1 : m ≤ ((b :: u).map g).sum :=
        ih (by simp) hm (fun x hx => hall x (List.mem_cons_of_mem _ hx))
      have h2 : 0 ≤ g a := le_trans hm (hall a (by simp))
      simp only [List.map_cons, List.sum_cons] at h1 ⊢
      linarith

theorem validationIffAux (req cols : List String) :
    (!(missingRequired req cols).isEmpty) = true ↔ ∃ c, c ∈ req ∧ c ∉ cols := by
  constructor
  · intro h
    have hne : missingRequired req cols ≠ [] := by
      intro he
      rw [he] at h
      simp at h
    obtain ⟨c, hc⟩ := List.exists_mem_of_ne_nil _ hne
    have hm := List.mem_filter.mp hc
    refine ⟨c, hm.1, ?_⟩
    have h2 := hm.2
    simp only [Bool.not_eq_true', decide_eq_false_iff_not] at h2
    exact h2
  · rintro ⟨c, hcr, hcc⟩
    have hmem : c ∈ missingRequired req cols :=
      List.mem_filter.mpr ⟨hcr, by simp [hcc]⟩
    cases hmr : missingRequired req cols with
    | nil => rw [hmr] at hmem; cases hmem
    | cons x xs => rfl

/-! ### The claims -/

/-- C1 (counterexample): with every restriction at the sentinel and a
minimum-orders threshold of 1, the filter engine does not return the
full raw dataset unchanged — a raw row whose delivered-orders value
is 0 is removed by the final threshold filter. -/
theorem c1_counterexample :
    applyFilters dfZero selAll = [] ∧ dfZero.rows.length = 1 :=
  ⟨rfl, rfl⟩

/-- C1 (amended): for every selection whose every restriction is the
sentinel and whose retailer search term is empty, the filter engine
returns exactly the raw rows whose delivered-orders value meets the
minimum-orders threshold; in particular it returns the full raw
dataset unchanged whenever every raw row meets the threshold. -/
theorem c1_amended (df : DataFrame) (f : FilterSelection)
    (h1 : f.targetNrr = "Все") (h2 : "Все" ∈ f.dates) (h3 : "Все" ∈ f.flags)
    (h4 : "Все" ∈ f.delivery) (h5 : "Все" ∈ f.retailers) (h6 : "Все" ∈ f.cities)
    (h7 : f.retailerSearch = "") :
    applyFilters df f
      = df.rows.filter (fun r => decide (f.minOrders ≤ r.ordersDelivered))
    ∧ ((∀ r ∈ df.rows, f.minOrders ≤ r.ordersDelivered) →
        applyFilters df f = df.rows) := by
  have e1 : nrrStep df f df.rows = df.rows := by
    simp [nrrStep, h1]
  have e2 : ∀ l, dateStep df f l = l := fun l => by
    simp [dateStep, h2]
  have e3 : ∀ l, flagStep df f l = l := fun l => by
    simp [flagStep, h3]
  have e4 : ∀ l, deliveryStep df f l = l := fun l => by
    simp [deliveryStep, h4]
  have e5 : ∀ l, retailerStep df f l = l := fun l => by
    simp [retailerStep, h5]
  have e6 : ∀ l, cityStep df f l = l := fun l => by
    simp [cityStep, h6]
  have e7 : ∀ l, searchStep df f l = l := fun l => by
    simp [searchStep, h7]
  have emain : applyFilters df f
      = df.rows.filter (fun r => decide (f.minOrders ≤ r.ordersDelivered)) := by
    unfold applyFilters
    rw [e1, e2, e3, e4, e5, e6, e7]
    rfl
  refine ⟨emain, fun hall => ?_⟩
  rw [emain]
  exact List.filter_eq_self.mpr (fun r hr => decide_eq_true (hall r hr))

/-- C1 (witness): the amended statement instantiated at a dataset with
no optional columns and the all-sentinel selection. -/
theorem c1_amended_witness :
    (applyFilters dfNone selAll
        = dfNone.rows.filter (fun r => decide (selAll.minOrders ≤ r.ordersDelivered)))
    ∧ ((∀ r ∈ dfNone.rows, selAll.minOrders ≤ r.ordersDelivered) →
        applyFilters dfNone selAll = dfNone.rows) :=
  c1_amended dfNone selAll rfl (by simp [selAll]) (by simp [selAll])
    (by simp [selAll]) (by simp [selAll]) (by simp [selAll]) rfl

/-- C2 (counterexample): at date granularity, a filtered row whose
date cell is missing is silently dropped by the group-by, so the
delivered-orders sum over the aggregated rows (0) differs from the
sum over the filtered rows (10). -/
theorem c2_counterexample :
    (analyzeByGranulation dfNoDt selAll Granularity.date).map
        (fun p => aggOrdersSum p.1) = some 0
    ∧ sumBy Row.ordersDelivered (applyFilters dfNoDt selAll) = 10 := by
  refine ⟨rfl, ?_⟩
  rw [show applyFilters dfNoDt selAll = [rowNoDt] from rfl]
  simp [sumBy, rowNoDt]

/-- C2 (amended): the delivered-orders sum over the aggregated rows
equals the delivered-orders sum over those filtered rows whose every
grouping-key cell is present; rows with a missing grouping-key cell
are dropped by the group-by (and when the grouping key is empty no
row is dropped, so the full filtered sum is preserved). -/
theorem c2_amended (df : DataFrame) (f : FilterSelection) (g : Granularity)
    (rows : List AggRow) (entity : String)
    (h : analyzeByGranulation df f g = some (rows, entity)) :
    aggOrdersSum rows
      = sumBy Row.ordersDelivered
          ((applyFilters df f).filter (keyComplete (groupCols df g))) := by
  unfold analyzeByGranulation at h
  by_cases h1 : (applyFilters df f).isEmpty
  · simp [h1] at h
  · by_cases h2 : (groupCols df g).isEmpty
    · simp only [h1, Bool.false_eq_true, if_false, h2, if_true,
        Option.some.injEq, Prod.mk.injEq] at h
      obtain ⟨h3, -⟩ := h
      rw [← h3]
      have hgc : groupCols df g = [] := List.isEmpty_iff.mp h2
      rw [hgc]
      have hfe : (applyFilters df f).filter (keyComplete []) = applyFilters df f :=
        List.filter_eq_self.mpr (fun a _ => rfl)
      rw [hfe]
      simp [aggOrdersSum, mkAggRow, sumBy]
    · simp only [h1, Bool.false_eq_true, if_false, h2, Option.some.injEq,
        Prod.mk.injEq] at h
      obtain ⟨h3, -⟩ := h
      rw [← h3]
      exact groupAgg_orders_sum _ _

/-- C2 (witness): the amended statement instantiated at a dataset
with no optional columns at overall granularity. -/
theorem c2_amended_witness :
    aggOrdersSum [mkAggRow [] [wRowA]]
      = sumBy Row.ordersDelivered
          ((applyFilters dfNone selAll).filter
            (keyComplete (groupCols dfNone Granularity.overall))) :=
  c2_amended dfNone selAll Granularity.overall [mkAggRow [] [wRowA]] "overall" rfl

/-- C3 (confirmed): when the minimum-orders threshold is at least 1,
every aggregated row has a positive delivered-orders sum and each of
the four per-order values equals the row's summed metric divided by
the row's summed delivered orders, so the division never sees a zero
divisor. -/
theorem c3_confirmed (df : DataFrame) (f : FilterSelection) (g : Granularity)
    (rows : List AggRow) (entity : String) (r : AggRow)
    (hmin : 1 ≤ f.minOrders)
    (h : analyzeByGranulation df f g = some (rows, entity)) (hr : r ∈ rows) :
    0 < r.ordersDelivered
    ∧ r.cp1PerOrder = r.cp1Ads / r.ordersDelivered
    ∧ r.promoPerOrder = r.promo / r.ordersDelivered
    ∧ r.fulfillmentPerOrder = r.fulfillment / r.ordersDelivered
    ∧ r.gmvPerOrder = r.gmvNoP / r.ordersDelivered := by
  obtain ⟨fiber, hne, hsub, hord, e1, e2, e3, e4⟩ :=
    mem_analyze_struct df f g rows entity r h hr
  have hges : f.minOrders ≤ (fiber.map Row.ordersDelivered).sum :=
    sum_map_ge f.minOrders Row.ordersDelivered fiber hne
      (le_trans zero_le_one hmin)
      (fun x hx => mem_applyFilters_orders df f x (hsub x hx))
  refine ⟨?_, e1, e2, e3, e4⟩
  rw [hord]
  calc (0 : Rat) < 1 := zero_lt_one
    _ ≤ f.minOrders := hmin
    _ ≤ _ := hges

/-- C3 (witness): the quotient property instantiated at a concrete
one-row dataset at overall granularity with threshold 1. -/
theorem c3_confirmed_witness :
    0 < (mkAggRow [] [wRowA]).ordersDelivered
    ∧ (mkAggRow [] [wRowA]).cp1PerOrder
        = (mkAggRow [] [wRowA]).cp1Ads / (mkAggRow [] [wRowA]).ordersDelivered
    ∧ (mkAggRow [] [wRowA]).promoPerOrder
        = (mkAggRow [] [wRowA]).promo / (mkAggRow [] [wRowA]).ordersDelivered
    ∧ (mkAggRow [] [wRowA]).fulfillmentPerOrder
        = (mkAggRow [] [wRowA]).fulfillment / (mkAggRow [] [wRowA]).ordersDelivered
    ∧ (mkAggRow [] [wRowA]).gmvPerOrder
        = (mkAggRow [] [wRowA]).gmvNoP / (mkAggRow [] [wRowA]).ordersDelivered :=
  c3_confirmed dfNone selAll Granularity.overall [mkAggRow [] [wRowA]] "overall"
    (mkAggRow [] [wRowA]) (by decide) rfl (List.mem_singleton.mpr rfl)

/-- C4 (counterexample): at overall granularity the optional-column
append loop still runs, so a dataset with a present date column and
two distinct dates aggregates to two rows, not one. -/
theorem c4_counterexample :
    aggRowCount dfDt selAll Granularity.overall = 2
    ∧ aggRowCount dfDt selAll Granularity.overall ≠ 1 := by
  constructor
  · rfl
  · decide

/-- C4 (amended): overall granularity skips grouping and produces one
row of plain full-set sums exactly when no optional dimension column
is present in the dataset (otherwise the optional-column append loop
makes the grouping key non-empty). -/
theorem c4_amended (df : DataFrame) (f : FilterSelection)
    (hne : applyFilters df f ≠ [])
    (h1 : df.hasDt = false) (h2 : df.hasFlag = false) (h3 : df.hasDelivery = false)
    (h4 : df.hasRetailer = false) (h5 : df.hasCity = false) :
    analyzeByGranulation df f Granularity.overall
      = some ([mkAggRow [] (applyFilters df f)], "overall")
    ∧ (mkAggRow [] (applyFilters df f)).cp1Ads
        = sumBy Row.cp1Ads (applyFilters df f)
    ∧ (mkAggRow [] (applyFilters df f)).ordersDelivered
        = sumBy Row.ordersDelivered (applyFilters df f)
    ∧ (mkAggRow [] (applyFilters df f)).promo
        = sumBy Row.promo (applyFilters df f)
    ∧ (mkAggRow [] (applyFilters df f)).gmvNoP
        = sumBy Row.gmvNoP (applyFilters df f)
    ∧ (mkAggRow [] (applyFilters df f)).fulfillment
        = sumBy Row.fulfillment (applyFilters df f) := by
  have hb : groupPlanBase df Granularity.overall = ([], "overall") := rfl
  have hgc : groupCols df Granularity.overall = [] := by
    simp [groupCols, hb, optionalGroupCols, DataFrame.hasCol,
      h1, h2, h3, h4, h5]
  have hni : (applyFilters df f).isEmpty = false := by
    cases hap : (applyFilters df f).isEmpty with
    | false => rfl
    | true => exact absurd (List.isEmpty_iff.mp hap) hne
  refine ⟨?_, rfl, rfl, rfl, rfl, rfl⟩
  unfold analyzeByGranulation
  rw [hni, hgc]
  rfl

/-- C4 (witness): the amended statement instantiated at a one-row
dataset with no optional columns. -/
theorem c4_amended_witness :
    analyzeByGranulation dfNone selAll Granularity.overall
      = some ([mkAggRow [] (applyFilters dfNone selAll)], "overall")
    ∧ (mkAggRow [] (applyFilters dfNone selAll)).cp1Ads
        = sumBy Row.cp1Ads (applyFilters dfNone selAll)
    ∧ (mkAggRow [] (applyFilters dfNone selAll)).ordersDelivered
        = sumBy Row.ordersDelivered (applyFilters dfNone selAll)
    ∧ (mkAggRow [] (applyFilters dfNone selAll)).promo
        = sumBy Row.promo (applyFilters dfNone selAll)
    ∧ (mkAggRow [] (applyFilters dfNone selAll)).gmvNoP
        = sumBy Row.gmvNoP (applyFilters dfNone selAll)
    ∧ (mkAggRow [] (applyFilters dfNone selAll)).fulfillment
        = sumBy Row.fulfillment (applyFilters dfNone selAll) :=
  c4_amended dfNone selAll (by decide) rfl rfl rfl rfl rfl

/-- C5 (confirmed): the size-tier classification is a total three-way
function of the aggregated row count alone, with 5000 comfortable,
5001 and 10000 responsive, and 10001 oversized. -/
theorem c5_confirmed :
    classifySize 5000 = SizeTier.comfortable
    ∧ classifySize 5001 = SizeTier.responsive
    ∧ classifySize 10000 = SizeTier.responsive
    ∧ classifySize 10001 = SizeTier.oversized
    ∧ ∀ n : Nat, classifySize n =
        if n ≤ 5000 then SizeTier.comfortable
        else if n ≤ 10000 then SizeTier.responsive
        else SizeTier.oversized := by
  refine ⟨by decide, by decide, by decide, by decide, ?_⟩
  intro n
  unfold classifySize
  split_ifs <;> first | rfl | (exfalso; omega)

/-- C6 (counterexample): a filter-and-check action whose filters match
no rows does not leave the previously stored aggregated result
untouched — it resets the stored result to the empty marker. -/
theorem c6_counterexample :
    (checkDataSize dfEmpty selAll Granularity.overall statePrior).currentFilteredData
      = none
    ∧ statePrior.currentFilteredData ≠ none := by
  refine ⟨rfl, ?_⟩
  decide

/-- C6 (amended): on the empty-result outcome the stored aggregated
result is reset to the empty marker (disabling the plot action) while
the stored entity label keeps its prior value. -/
theorem c6_amended (df : DataFrame) (f : FilterSelection) (g : Granularity)
    (s : SessionState) (h : analyzeByGranulation df f g = none) :
    (checkDataSize df f g s).currentFilteredData = none
    ∧ (checkDataSize df f g s).currentEntityName = s.currentEntityName := by
  simp [checkDataSize, h]

/-- C6 (witness): the amended statement instantiated at an empty
dataset and a state holding a prior result. -/
theorem c6_amended_witness :
    (checkDataSize dfEmpty selAll Granularity.overall statePrior).currentFilteredData
      = none
    ∧ (checkDataSize dfEmpty selAll Granularity.overall statePrior).currentEntityName
      = statePrior.currentEntityName :=
  c6_amended dfEmpty selAll Granularity.overall statePrior rfl

/-- C7 (counterexample): a header containing exactly the five metric
columns passes validation in the flexible variant but fails it in the
strict variant, whose required list also contains the dimension and
identifier columns. -/
theorem c7_counterexample :
    validationFailsFlexible requiredColumnsFlexible = false
    ∧ validationFailsStrict requiredColumnsFlexible = true :=
  ⟨rfl, rfl⟩

/-- C7 (amended): in the flexible variant validation fails exactly
when one of the five metric columns is absent; in the strict variant
it fails exactly when any of the thirteen listed columns — the
dimension and identifier columns included — is absent. -/
theorem c7_amended (cols : List String) :
    (validationFailsFlexible cols = true
      ↔ ∃ c, c ∈ requiredColumnsFlexible ∧ c ∉ cols)
    ∧ (validationFailsStrict cols = true
      ↔ ∃ c, c ∈ requiredColumnsStrict ∧ c ∉ cols) :=
  ⟨validationIffAux requiredColumnsFlexible cols,
   validationIffAux requiredColumnsStrict cols⟩

/-- C8 (confirmed): with a minimum-orders threshold of at least 1,
every aggregated row's delivered-orders sum meets the threshold,
because every surviving raw row meets it individually and every
produced group is non-empty. -/
theorem c8_confirmed (df : DataFrame) (f : FilterSelection) (g : Granularity)
    (rows : List AggRow) (entity : String) (r : AggRow)
    (hmin : 1 ≤ f.minOrders)
    (h : analyzeByGranulation df f g = some (rows, entity)) (hr : r ∈ rows) :
    f.minOrders ≤ r.ordersDelivered := by
  obtain ⟨fiber, hne, hsub, hord, -, -, -, -⟩ :=
    mem_analyze_struct df f g rows entity r h hr
  rw [hord]
  exact sum_map_ge f.minOrders Row.ordersDelivered fiber hne
    (le_trans zero_le_one hmin)
    (fun x hx => mem_applyFilters_orders df f x (hsub x hx))

/-- C8 (witness): the group-threshold invariant instantiated at a
concrete one-row dataset at overall granularity with threshold 1. -/
theorem c8_confirmed_witness :
    selAll.minOrders ≤ (mkAggRow [] [wRowA]).ordersDelivered :=
  c8_confirmed dfNone selAll Granularity.overall [mkAggRow [] [wRowA]] "overall"
    (mkAggRow [] [wRowA]) (by decide) rfl (List.mem_singleton.mpr rfl)

/-- C9 (counterexample): the simplified plot builder sets no explicit
colour-domain bounds at all, so its colour scale is not clamped to
the 5th percentile of the plotted advertising-cost quotients. -/
theorem c9_counterexample :
    (plotMarkerSimple dataNine).cmin
      ≠ some (quantileLinear (1 / 20) (dataNine.map AggRow.cp1PerOrder))
    ∧ (plotMarkerSimple dataNine).cmin = none := by
  refine ⟨?_, rfl⟩
  intro h
  simp [plotMarkerSimple] at h

/-- C9 (amended): the full plot builder clamps the colour domain to
the 5th and 95th linear-interpolation percentiles of the
advertising-cost quotient over exactly the rows being plotted, and
colours points by that quotient; the simplified plot builder sets no
explicit colour-domain bounds. -/
theorem c9_amended (data : List AggRow) :
    (plotMarkerFull data).colorValues = data.map AggRow.cp1PerOrder
    ∧ (plotMarkerFull data).cmin
        = some (quantileLinear (1 / 20) ((plotMarkerFull data).colorValues))
    ∧ (plotMarkerFull data).cmax
        = some (quantileLinear (19 / 20) ((plotMarkerFull data).colorValues))
    ∧ (plotMarkerSimple data).cmin = none
    ∧ (plotMarkerSimple data).cmax = none :=
  ⟨rfl, rfl, rfl, rfl, rfl⟩

/-- C10 (confirmed): when the dataset has a retailer column and the
search term is non-empty, every row surviving the filter engine has a
present retailer name that contains the term as a case-insensitive
substring; in particular rows with a missing retailer name are
excluded. -/
theorem c10_confirmed (df : DataFrame) (f : FilterSelection) (r : Row)
    (hcol : df.hasRetailer = true) (hs : f.retailerSearch ≠ "")
    (h : r ∈ applyFilters df f) :
    ∃ s, r.retailer = some s ∧ hasSubCI f.retailerSearch s = true := by
  unfold applyFilters minOrdersStep at h
  have h7 : r ∈ searchStep df f (cityStep df f (retailerStep df f
      (deliveryStep df f (flagStep df f (dateStep df f
        (nrrStep df f df.rows)))))) :=
    (List.mem_filter.mp h).1
  have hcond : (df.hasRetailer && (f.retailerSearch != "")) = true := by
    rw [hcol, bne_iff_ne.mpr hs]
    rfl
  unfold searchStep at h7
  split at h7
  · have hmatch := (List.mem_filter.mp h7).2
    unfold optMatches at hmatch
    cases hret : r.retailer with
    | none => rw [hret] at hmatch; cases hmatch
    | some s =>
      rw [hret] at hmatch
      exact ⟨s, rfl, hmatch⟩
  · next hcontra => exact absurd hcond hcontra

/-- C10 (witness): the search property instantiated at a dataset with
retailer "Alpha" and the search term "alp". -/
theorem c10_confirmed_witness :
    ∃ s, rowRet.retailer = some s ∧ hasSubCI selSearch.retailerSearch s = true :=
  c10_confirmed dfRet selSearch rowRet rfl (by decide) (by decide)

end Kuper
